import Mathlib

/-!
Verification of the timer/stopwatch repository core against its
natural-language specification.

The repository's `script.js` concatenates three implementation variants:
* variant A (classes `Timer`, `Stopwatch`, `CountdownTimer`, `UIController`),
* variant B (free functions and handlers over `swStart`, `cdDigits`,
  `cdMilliseconds`, `cdEnd`),
* variant C (classes `TimerBase`, `Stopwatch`, `Countdown`, `ViewManager`).

Each JS method is embedded as a pure Lean function on an explicit state
record; `Date.now()` becomes an explicit `now : Int` argument, and a JS
`throw`/alert becomes an `Option` error alongside the (unchanged) state.
-/

/-! ## Variant A: `CountdownTimer` engine state -/

structure CDState where
  initialTime : Int
  remainingTime : Int
  isRunning : Bool
  startTime : Int
  hasExpired : Bool
deriving DecidableEq

def CDState.constr : CDState :=
  { initialTime := 0, remainingTime := 0, isRunning := false,
    startTime := 0, hasExpired := false }

inductive CDErr where
  | invalidDuration
deriving DecidableEq

/-- `CountdownTimer.setTime(ms)`: throws when `ms <= 0` (before any field is
assigned, so the state is untouched on the error path); otherwise sets
`initialTime`, `remainingTime` and clears `hasExpired`. -/
def CountdownTimer.setTime (st : CDState) (ms : Int) : CDState × Option CDErr :=
  if ms ≤ 0 then (st, some CDErr.invalidDuration)
  else ({ st with initialTime := ms, remainingTime := ms, hasExpired := false }, none)

/-- `CountdownTimer._update()`: no-op unless running; recomputes
`remainingTime = max(0, initialTime - (now - startTime))` and, when it hits
zero, stops and sets `hasExpired`. -/
def CountdownTimer.update (st : CDState) (now : Int) : CDState :=
  if !st.isRunning then st
  else
    let elapsed := now - st.startTime
    let rem := max 0 (st.initialTime - elapsed)
    if rem ≤ 0 then
      { st with isRunning := false, remainingTime := 0, hasExpired := true }
    else
      { st with remainingTime := rem }

/-- `CountdownTimer.start()`: warns and returns when already running or when
`remainingTime <= 0`; otherwise anchors `startTime = Date.now()`, clears
`hasExpired` and runs `_update()` once (as `start` does synchronously). -/
def CountdownTimer.start (st : CDState) (now : Int) : CDState :=
  if st.isRunning then st
  else if st.remainingTime ≤ 0 then st
  else CountdownTimer.update
    { st with isRunning := true, startTime := now, hasExpired := false } now

/-- `CountdownTimer.stop()`: warns and returns when not running; otherwise
clears the running flag (the animation-frame handle is presentation-side). -/
def CountdownTimer.stop (st : CDState) : CDState :=
  if !st.isRunning then st else { st with isRunning := false }

/-- `CountdownTimer.reset()`: stop, then restore `remainingTime` from
`initialTime` and clear `hasExpired`. -/
def CountdownTimer.reset (st : CDState) : CDState :=
  let st2 := CountdownTimer.stop st
  { st2 with remainingTime := st2.initialTime, hasExpired := false }

/-- `CountdownTimer.clear()`: stop, then zero both durations and clear
`hasExpired`. -/
def CountdownTimer.clear (st : CDState) : CDState :=
  let st2 := CountdownTimer.stop st
  { st2 with initialTime := 0, remainingTime := 0, hasExpired := false }

/-! ## Variant A: `UIController._updateDisplays` expiration handling -/

structure UIState where
  cd : CDState
  countdownExpired : Bool
  alerts : Nat
deriving DecidableEq

/-- One display tick: the engine's own `_update` loop advances the countdown,
then `UIController._updateDisplays` checks `isExpired()` against the
`countdownExpired` latch, and on the first expired tick stops the engine,
shows the expiration alert once, and sets the latch. -/
def UIController.tick (u : UIState) (now : Int) : UIState :=
  let cd := CountdownTimer.update u.cd now
  if cd.hasExpired && !u.countdownExpired then
    { cd := CountdownTimer.stop cd, countdownExpired := true, alerts := u.alerts + 1 }
  else
    { u with cd := cd }

/-! ## Variant A: `Timer` (stopwatch base class) -/

structure SWState where
  startTime : Int
  elapsedTime : Int
  isRunning : Bool
deriving DecidableEq

/-- `Timer._update()`: while running, recomputes `elapsedTime = now - startTime`. -/
def Timer.update (st : SWState) (now : Int) : SWState :=
  if !st.isRunning then st else { st with elapsedTime := now - st.startTime }

/-- `Timer.start()`: warns and returns when already running; otherwise anchors
`startTime = Date.now() - elapsedTime` and runs `_update()` once. -/
def Timer.start (st : SWState) (now : Int) : SWState :=
  if st.isRunning then st
  else Timer.update { st with isRunning := true, startTime := now - st.elapsedTime } now

/-! ## Operations and reachability for the variant A countdown engine -/

inductive CDOp where
  | set (ms : Int)
  | start
  | stop
  | reset
  | clear
  | tick
deriving DecidableEq

def CDState.apply (st : CDState) (t : Int) : CDOp → CDState
  | CDOp.set ms => (CountdownTimer.setTime st ms).1
  | CDOp.start => CountdownTimer.start st t
  | CDOp.stop => CountdownTimer.stop st
  | CDOp.reset => CountdownTimer.reset st
  | CDOp.clear => CountdownTimer.clear st
  | CDOp.tick => CountdownTimer.update st t

/-- States of the variant A countdown engine reachable from construction by
any sequence of operations, with a monotone wall clock (`Date.now()` does not
go backwards between operations). The `Int` is the time of the last step. -/
inductive CDReach : CDState → Int → Prop
  | constr (t : Int) : CDReach CDState.constr t
  | step (st : CDState) (t t2 : Int) (op : CDOp) :
      CDReach st t → t ≤ t2 → CDReach (CDState.apply st t2 op) t2

/-- Auxiliary invariant carried through the reachability induction. -/
def CDInv (st : CDState) (t : Int) : Prop :=
  0 ≤ st.initialTime ∧ 0 ≤ st.remainingTime ∧
    st.remainingTime ≤ st.initialTime ∧ (st.isRunning = true → st.startTime ≤ t)

/-! ## Digit input buffers

Digit strings are embedded as `List Nat` (each entry a decimal digit pressed
on the 0-9 keypad). -/

/-- JS `s.slice(-6)`: the last `6` characters, i.e. drop all but 6. -/
def sliceLast6 (l : List Nat) : List Nat := l.drop (l.length - 6)

/-- JS `s.padStart(6, "0")`: left-pad with zeros to length 6. -/
def padStart6 (l : List Nat) : List Nat := List.replicate (6 - l.length) 0 ++ l

/-- JS `parseInt` on a string of decimal digits. -/
def parseDigits (l : List Nat) : Nat := l.foldl (fun a d => a * 10 + d) 0

/-- Variant A `UIController.handleNumberInput(number)`:
`inputSequence = (inputSequence + number).slice(-6)`. -/
def UIController.handleNumberInput (seq : List Nat) (d : Nat) : List Nat :=
  sliceLast6 (seq ++ [d])

/-- Variant A `UIController.setCountdownTime()` arithmetic: pad the sequence
to 6 digits, parse HH/MM/SS, and form `(h*3600 + m*60 + s) * 1000` ms. -/
def UIController.setCountdownTotalMs (seq : List Nat) : Nat :=
  let padded := padStart6 seq
  let hours := parseDigits (padded.take 2)
  let minutes := parseDigits ((padded.drop 2).take 2)
  let seconds := parseDigits ((padded.drop 4).take 2)
  (hours * 3600 + minutes * 60 + seconds) * 1000

/-- Variant B digit button `onclick`: `if (cdDigits.length >= 6) return;
cdDigits += i`. -/
def cdDigitPress (digits : List Nat) (d : Nat) : List Nat :=
  if digits.length ≥ 6 then digits else digits ++ [d]

/-- Variant B `getCountdownMilliseconds()`. -/
def getCountdownMilliseconds (digits : List Nat) : Nat :=
  let padded := padStart6 digits
  let h := parseDigits (padded.take 2)
  let m := parseDigits ((padded.drop 2).take 2)
  let s := parseDigits ((padded.drop 4).take 2)
  (h * 3600 + m * 60 + s) * 1000

/-- The claim-side reading of the buffer contract: the buffer holds "the last
6 digits entered". -/
def lastSixEntered (l : List Nat) : List Nat := (l.reverse.take 6).reverse

/-! ## Variant C (Gemini): `Countdown` class -/

structure GCState where
  initialTime : Nat
  remainingTime : Nat
  inputBuffer : List Nat
  isRunning : Bool
deriving DecidableEq

def GCState.constr : GCState :=
  { initialTime := 0, remainingTime := 0, inputBuffer := [], isRunning := false }

/-- `Countdown.maxTimeMs = 99 * 3600000 + 59 * 60000 + 59 * 1000`. -/
def Countdown.maxTimeMs : Nat := 99 * 3600000 + 59 * 60000 + 59 * 1000

/-- The millisecond value `updateInputDisplay` derives from the input buffer:
pad (or keep the last 6 when longer than 6), parse HH/MM/SS, and form
`h*3600000 + m*60000 + s*1000`. -/
def Countdown.currentInputMs (buf : List Nat) : Nat :=
  let padded := if buf.length > 6 then sliceLast6 buf else padStart6 buf
  let h := parseDigits (padded.take 2)
  let m := parseDigits ((padded.drop 2).take 2)
  let s := parseDigits ((padded.drop 4).take 2)
  h * 3600000 + m * 60000 + s * 1000

/-- `Countdown.updateInputDisplay()`: overwrites `remainingTime` with the
value currently spelled out by the input buffer. -/
def Countdown.updateInputDisplay (st : GCState) : GCState :=
  { st with remainingTime := Countdown.currentInputMs st.inputBuffer }

/-- The buffer mutation inside `Countdown.appendDigit`: `shift()` the oldest
digit out when 6 are held, then `push` the new one. -/
def Countdown.bufShiftPush (buf : List Nat) (d : Nat) : List Nat :=
  (if buf.length ≥ 6 then buf.drop 1 else buf) ++ [d]

/-- `Countdown.appendDigit(digit)`: shift-and-push into the buffer, then
`updateInputDisplay()`. -/
def Countdown.appendDigit (st : GCState) (d : Nat) : GCState :=
  Countdown.updateInputDisplay
    { st with inputBuffer := Countdown.bufShiftPush st.inputBuffer d }

/-- `Countdown.resetInput()`: stop, clear the buffer and both durations. -/
def Countdown.resetInput (st : GCState) : GCState :=
  { st with
    isRunning := false, inputBuffer := [], initialTime := 0,
    remainingTime := 0 }

inductive GErr where
  | invalidDuration
  | durationOverflow
deriving DecidableEq

/-- `Countdown.setTime()`: rejects an empty buffer or zero time leaving the
state untouched; rejects a time above `maxTimeMs` resetting the input;
otherwise confirms `initialTime = remainingTime`. -/
def Countdown.setTime (st : GCState) : GCState × Option GErr :=
  if st.inputBuffer.length = 0 ∨ st.remainingTime = 0 then
    (st, some GErr.invalidDuration)
  else if Countdown.maxTimeMs < st.remainingTime then
    (Countdown.resetInput st, some GErr.durationOverflow)
  else
    ({ st with initialTime := st.remainingTime }, none)

/-! ## Time formatters -/

structure FormattedTime where
  hours : String
  minutes : String
  seconds : String
  milliseconds : String
  formatted : String
  fullFormatted : String
deriving DecidableEq

/-- JS `s.padStart(w, "0")`. -/
def strPadStart (s : String) (w : Nat) : String :=
  String.mk (List.replicate (w - s.length) '0') ++ s

/-- Variant A `Timer.formatTime(ms)` (static): derives everything from
`totalSeconds = floor(ms / 1000)`. -/
def Timer.formatTime (ms : Nat) : FormattedTime :=
  let totalSeconds := ms / 1000
  let hours := strPadStart (toString (totalSeconds / 3600)) 2
  let minutes := strPadStart (toString (totalSeconds % 3600 / 60)) 2
  let seconds := strPadStart (toString (totalSeconds % 60)) 2
  let milliseconds := strPadStart (toString (ms % 1000)) 3
  { hours := hours, minutes := minutes, seconds := seconds,
    milliseconds := milliseconds,
    formatted := hours ++ ":" ++ minutes ++ ":" ++ seconds,
    fullFormatted := hours ++ ":" ++ minutes ++ ":" ++ seconds ++ "." ++ milliseconds }

structure BFormat where
  time : String
  ms : String
deriving DecidableEq

/-- Variant B free `formatTime(ms)`: returns `{ time, ms }`. -/
def formatTime (msIn : Nat) : BFormat :=
  let milliseconds := msIn % 1000
  let totalSeconds := msIn / 1000
  let hours := totalSeconds / 3600
  let minutes := totalSeconds % 3600 / 60
  let seconds := totalSeconds % 60
  { time := strPadStart (toString hours) 2 ++ ":" ++ strPadStart (toString minutes) 2
      ++ ":" ++ strPadStart (toString seconds) 2,
    ms := "." ++ strPadStart (toString milliseconds) 3 }

/-- Variant C `TimerBase.formatTime(ms)`: clamps `ms = Math.max(0, ms)` and
decomposes directly by milliseconds, returning the full string. -/
def TimerBase.formatTime (ms : Int) : String :=
  let n := (max 0 ms).toNat
  let hours := n / 3600000
  let minutes := n % 3600000 / 60000
  let seconds := n % 60000 / 1000
  let milliseconds := n % 1000
  strPadStart (toString hours) 2 ++ ":" ++ strPadStart (toString minutes) 2
    ++ ":" ++ strPadStart (toString seconds) 2 ++ "."
    ++ strPadStart (toString milliseconds) 3

/-- The claim-side formatter: `hours = ms / 3600000`,
`minutes = ms % 3600000 / 60000`, `seconds = ms % 60000 / 1000`,
`millis = ms % 1000`, zero-padded to 2/2/2/3 digits. -/
def specFormat (ms : Nat) : FormattedTime :=
  let hours := strPadStart (toString (ms / 3600000)) 2
  let minutes := strPadStart (toString (ms % 3600000 / 60000)) 2
  let seconds := strPadStart (toString (ms % 60000 / 1000)) 2
  let milliseconds := strPadStart (toString (ms % 1000)) 3
  { hours := hours, minutes := minutes, seconds := seconds,
    milliseconds := milliseconds,
    formatted := hours ++ ":" ++ minutes ++ ":" ++ seconds,
    fullFormatted := hours ++ ":" ++ minutes ++ ":" ++ seconds ++ "." ++ milliseconds }

/-- Claim-side HHMMSS duration: pad the buffer to 6 digits with leading
zeros, split into HH, MM, SS pairs, and compute
`(HH*3600 + MM*60 + SS) * 1000` milliseconds. -/
def specHHMMSSDuration (buf : List Nat) : Nat :=
  let p := padStart6 buf
  let hh := 10 * p.getD 0 0 + p.getD 1 0
  let mm := 10 * p.getD 2 0 + p.getD 3 0
  let ss := 10 * p.getD 4 0 + p.getD 5 0
  (hh * 3600 + mm * 60 + ss) * 1000

/-! ## Theorems -/

theorem cdInv_apply (st : CDState) (t t2 : Int) (op : CDOp)
    (h : CDInv st t) (hle : t ≤ t2) : CDInv (CDState.apply st t2 op) t2 := by
  obtain ⟨h1, h2, h3, h4⟩ := h
  cases op with
  | set ms =>
    simp only [CDState.apply, CountdownTimer.setTime]
    split
    · exact ⟨h1, h2, h3, fun hr => le_trans (h4 hr) hle⟩
    · rename_i hms
      exact ⟨(Int.not_le.mp hms).le, (Int.not_le.mp hms).le, le_refl _,
        fun hr => le_trans (h4 hr) hle⟩
  | start =>
    simp only [CDState.apply, CountdownTimer.start]
    split
    · exact ⟨h1, h2, h3, fun hr => le_trans (h4 hr) hle⟩
    · split
      · exact ⟨h1, h2, h3, fun hr => le_trans (h4 hr) hle⟩
      · simp only [CountdownTimer.update]
        split
        · exact ⟨h1, h2, h3, fun _ => le_refl _⟩
        · split
          · exact ⟨h1, le_refl _, h1, fun _ => le_refl _⟩
          · refine ⟨h1, ?_, ?_, fun _ => le_refl _⟩ <;> simp_all
  | stop =>
    simp only [CDState.apply, CountdownTimer.stop]
    split
    · exact ⟨h1, h2, h3, fun hr => le_trans (h4 hr) hle⟩
    · exact ⟨h1, h2, h3, by simp⟩
  | reset =>
    simp only [CDState.apply, CountdownTimer.reset, CountdownTimer.stop]
    split
    · exact ⟨h1, h1, le_refl _, fun hr => le_trans (h4 hr) hle⟩
    · exact ⟨h1, h1, le_refl _, by simp⟩
  | clear =>
    simp only [CDState.apply, CountdownTimer.clear, CountdownTimer.stop]
    split
    · exact ⟨le_refl _, le_refl _, le_refl _, fun hr => le_trans (h4 hr) hle⟩
    · exact ⟨le_refl _, le_refl _, le_refl _, by simp⟩
  | tick =>
    simp only [CDState.apply, CountdownTimer.update]
    split
    · exact ⟨h1, h2, h3, fun hr => le_trans (h4 hr) hle⟩
    · have hst : st.isRunning = true := by
        rename_i hc; simpa using hc
      have hanchor : st.startTime ≤ t2 := le_trans (h4 hst) hle
      split
      · exact ⟨h1, le_refl _, h1, fun _ => hanchor⟩
      · refine ⟨h1, ?_, ?_, fun _ => hanchor⟩ <;> simp_all

theorem cdReach_inv (st : CDState) (t : Int) (h : CDReach st t) : CDInv st t := by
  induction h with
  | constr t => exact ⟨le_refl _, le_refl _, le_refl _, by simp [CDState.constr]⟩
  | step st t t2 op _ hle ih => exact cdInv_apply st t t2 op ih hle

theorem sliceLast6_eq_lastSixEntered (l : List Nat) :
    sliceLast6 l = lastSixEntered l := by
  simp [sliceLast6, lastSixEntered, List.take_reverse]

theorem lastSixEntered_length_le (l : List Nat) :
    (lastSixEntered l).length ≤ 6 := by
  simp [lastSixEntered]

theorem lastSixEntered_of_length_le (l : List Nat) (h : l.length ≤ 6) :
    lastSixEntered l = l := by
  rw [← sliceLast6_eq_lastSixEntered, sliceLast6, Nat.sub_eq_zero_of_le h,
    List.drop_zero]

theorem lastSixEntered_append (a b : List Nat) :
    lastSixEntered (lastSixEntered a ++ b) = lastSixEntered (a ++ b) := by
  simp only [lastSixEntered, List.reverse_append, List.reverse_reverse,
    List.take_append_eq_append_take, List.take_take, List.length_take,
    List.length_reverse]
  have h : (6 - b.length) ⊓ 6 = 6 - b.length := by omega
  rw [h]

theorem foldl_lastSix (step : List Nat → Nat → List Nat)
    (hstep : ∀ b d, b.length ≤ 6 → step b d = sliceLast6 (b ++ [d])) :
    ∀ (ds b : List Nat), b.length ≤ 6 →
      List.foldl step b ds = lastSixEntered (b ++ ds) := by
  intro ds
  induction ds with
  | nil =>
    intro b hb
    simpa using (lastSixEntered_of_length_le b hb).symm
  | cons d rest ih =>
    intro b hb
    rw [List.foldl_cons, hstep b d hb, sliceLast6_eq_lastSixEntered,
      ih _ (lastSixEntered_length_le _), lastSixEntered_append]
    simp

theorem bufShiftPush_eq (b : List Nat) (d : Nat) (hb : b.length ≤ 6) :
    Countdown.bufShiftPush b d = sliceLast6 (b ++ [d]) := by
  rw [Countdown.bufShiftPush, sliceLast6]
  by_cases h6 : b.length ≥ 6
  · have h : b.length = 6 := le_antisymm hb h6
    rw [if_pos h6]
    simp [List.drop_append_eq_append_drop, h]
  · rw [if_neg h6]
    have h0 : b.length + 1 - 6 = 0 := by omega
    simp [h0]

theorem foldl_appendDigit_inputBuffer (ds : List Nat) (st : GCState) :
    (List.foldl Countdown.appendDigit st ds).inputBuffer =
      List.foldl Countdown.bufShiftPush st.inputBuffer ds := by
  induction ds generalizing st with
  | nil => rfl
  | cons d rest ih => exact ih (Countdown.appendDigit st d)

theorem foldl_cdDigitPress (ds : List Nat) : ∀ b : List Nat, b.length ≤ 6 →
    List.foldl cdDigitPress b ds = b ++ ds.take (6 - b.length) := by
  induction ds with
  | nil =>
    intro b _
    simp
  | cons d rest ih =>
    intro b hb
    rw [List.foldl_cons]
    by_cases h6 : b.length ≥ 6
    · have h0 : 6 - b.length = 0 := by omega
      rw [cdDigitPress, if_pos h6, ih b hb, h0]
      simp [h0]
    · rw [cdDigitPress, if_neg h6, ih (b ++ [d]) (by simp; omega)]
      have hstep : 6 - b.length = (6 - (b ++ [d]).length) + 1 := by
        simp; omega
      rw [hstep, List.take_succ_cons]
      simp

/-- C1 (counterexample): the variant B digit handler does not implement the
shift semantics: pressing 1,2,3,4,5,6,7 leaves the first six digits
1,2,3,4,5,6 in `cdDigits`, not the last six digits 2,3,4,5,6,7. -/
theorem c1_counterexample :
    List.foldl cdDigitPress [] [1, 2, 3, 4, 5, 6, 7] = [1, 2, 3, 4, 5, 6] ∧
    lastSixEntered [1, 2, 3, 4, 5, 6, 7] = [2, 3, 4, 5, 6, 7] ∧
    List.foldl cdDigitPress [] [1, 2, 3, 4, 5, 6, 7] ≠
      lastSixEntered [1, 2, 3, 4, 5, 6, 7] := by decide

/-- C1 (amended): for every sequence of digit presses, the variant A handler
`UIController.handleNumberInput` and the variant C `Countdown.appendDigit`
keep exactly the last 6 digits entered (shift semantics), and the HHMMSS
duration of the running example 1,2,3,4,5 is 00:00:01, 00:00:12, 00:01:23,
00:12:34, 01:23:45; the variant B digit handler instead ignores every digit
pressed while 6 are already held, keeping the first 6 digits entered. -/
theorem c1_amended :
    (∀ presses : List Nat,
      List.foldl UIController.handleNumberInput [] presses =
        lastSixEntered presses) ∧
    (∀ presses : List Nat,
      (List.foldl Countdown.appendDigit GCState.constr presses).inputBuffer =
        lastSixEntered presses) ∧
    (∀ presses : List Nat,
      List.foldl cdDigitPress [] presses = presses.take 6) ∧
    UIController.setCountdownTotalMs
      (List.foldl UIController.handleNumberInput [] [1]) = 1000 ∧
    UIController.setCountdownTotalMs
      (List.foldl UIController.handleNumberInput [] [1, 2]) = 12000 ∧
    UIController.setCountdownTotalMs
      (List.foldl UIController.handleNumberInput [] [1, 2, 3]) = 83000 ∧
    UIController.setCountdownTotalMs
      (List.foldl UIController.handleNumberInput [] [1, 2, 3, 4]) = 754000 ∧
    UIController.setCountdownTotalMs
      (List.foldl UIController.handleNumberInput [] [1, 2, 3, 4, 5]) = 5025000 := by
  refine ⟨?_, ?_, ?_, by decide, by decide, by decide, by decide, by decide⟩
  · intro presses
    simpa using
      foldl_lastSix UIController.handleNumberInput (fun b d _ => rfl) presses []
        (by simp)
  · intro presses
    rw [foldl_appendDigit_inputBuffer]
    simpa using
      foldl_lastSix Countdown.bufShiftPush bufShiftPush_eq presses
        GCState.constr.inputBuffer (by simp [GCState.constr])
  · intro presses
    simpa using foldl_cdDigitPress presses [] (by simp)

theorem tick_fix (u : UIState) (t : Int)
    (h1 : u.cd.isRunning = false) (h2 : u.countdownExpired = true) :
    UIController.tick u t = u := by
  obtain ⟨cd, ce, al⟩ := u
  simp only at h1 h2
  subst h2
  simp [UIController.tick, CountdownTimer.update, h1]

theorem foldl_tick_fix (ts : List Int) (u : UIState)
    (h1 : u.cd.isRunning = false) (h2 : u.countdownExpired = true) :
    List.foldl UIController.tick u ts = u := by
  induction ts with
  | nil => rfl
  | cons t rest ih => rw [List.foldl_cons, tick_fix u t h1 h2]; exact ih

/-- C2: after configuring a positive duration `d` and starting at `t0`, a
tick at any `t1 ≥ t0 + d` leaves the engine expired with `remaining = 0` and
emits the expiration alert exactly once; every further tick (any list of
later tick times) emits no additional alert and leaves `remaining = 0`. -/
theorem c2_expiration_once (d t0 t1 : Int) (ts : List Int)
    (hd : 0 < d) (ht : t0 + d ≤ t1) :
    (UIController.tick
      ⟨CountdownTimer.start (CountdownTimer.setTime CDState.constr d).1 t0, false, 0⟩
      t1).cd.hasExpired = true ∧
    (UIController.tick
      ⟨CountdownTimer.start (CountdownTimer.setTime CDState.constr d).1 t0, false, 0⟩
      t1).cd.remainingTime = 0 ∧
    (UIController.tick
      ⟨CountdownTimer.start (CountdownTimer.setTime CDState.constr d).1 t0, false, 0⟩
      t1).alerts = 1 ∧
    (List.foldl UIController.tick
      (UIController.tick
        ⟨CountdownTimer.start (CountdownTimer.setTime CDState.constr d).1 t0, false, 0⟩
        t1) ts).alerts = 1 ∧
    (List.foldl UIController.tick
      (UIController.tick
        ⟨CountdownTimer.start (CountdownTimer.setTime CDState.constr d).1 t0, false, 0⟩
        t1) ts).cd.remainingTime = 0 := by
  have hs1 : (CountdownTimer.setTime CDState.constr d).1 =
      { initialTime := d, remainingTime := d, isRunning := false,
        startTime := 0, hasExpired := false } := by
    rw [CountdownTimer.setTime, if_neg (by omega)]
    rfl
  have hs0 : CountdownTimer.start (CountdownTimer.setTime CDState.constr d).1 t0 =
      { initialTime := d, remainingTime := d, isRunning := true,
        startTime := t0, hasExpired := false } := by
    rw [hs1, CountdownTimer.start]
    simp only [Bool.false_eq_true, if_false]
    rw [if_neg (by omega : ¬ d ≤ 0), CountdownTimer.update]
    simp only [Bool.not_true, Bool.false_eq_true, if_false]
    rw [if_neg (by omega : ¬ max 0 (d - (t0 - t0)) ≤ 0)]
    have hr : max 0 (d - (t0 - t0)) = d := by omega
    rw [hr]
  have hu1 : UIController.tick
      ⟨CountdownTimer.start (CountdownTimer.setTime CDState.constr d).1 t0, false, 0⟩ t1 =
      ⟨{ initialTime := d, remainingTime := 0, isRunning := false,
         startTime := t0, hasExpired := true }, true, 1⟩ := by
    rw [hs0, UIController.tick]
    simp only [CountdownTimer.update, Bool.not_true, Bool.false_eq_true, if_false]
    rw [if_pos (by omega : max 0 (d - (t1 - t0)) ≤ 0)]
    simp [CountdownTimer.stop]
  rw [hu1]
  refine ⟨rfl, rfl, rfl, ?_, ?_⟩ <;>
    rw [foldl_tick_fix ts _ rfl rfl]

/-- C2 (witness): the expiration scenario at `d = 5000`, start at 0, first
tick at 5000, further ticks at 5050 and 5100. -/
theorem c2_expiration_once_witness :
    (0 : Int) < 5000 ∧ (0 : Int) + 5000 ≤ 5000 ∧
    ((UIController.tick
      ⟨CountdownTimer.start (CountdownTimer.setTime CDState.constr 5000).1 0, false, 0⟩
      5000).cd.hasExpired = true ∧
    (UIController.tick
      ⟨CountdownTimer.start (CountdownTimer.setTime CDState.constr 5000).1 0, false, 0⟩
      5000).cd.remainingTime = 0 ∧
    (UIController.tick
      ⟨CountdownTimer.start (CountdownTimer.setTime CDState.constr 5000).1 0, false, 0⟩
      5000).alerts = 1 ∧
    (List.foldl UIController.tick
      (UIController.tick
        ⟨CountdownTimer.start (CountdownTimer.setTime CDState.constr 5000).1 0, false, 0⟩
        5000) [5050, 5100]).alerts = 1 ∧
    (List.foldl UIController.tick
      (UIController.tick
        ⟨CountdownTimer.start (CountdownTimer.setTime CDState.constr 5000).1 0, false, 0⟩
        5000) [5050, 5100]).cd.remainingTime = 0) :=
  ⟨by decide, by decide,
    c2_expiration_once 5000 0 5000 [5050, 5100] (by decide) (by decide)⟩

/-- C3: evaluating variant A's `CountdownTimer` at the failing input — set
5000 ms, start at t=0, tick at t=2000 (remaining 3000), pause, resume at
t=2000 — shows the resume immediately restores `remaining` to the full 5000,
the countdown is not expired at t=5000 even though 5000 ms of running time
have elapsed, and expires only at t=7000 (total running time 7000 ms). -/
theorem c3_resume_restarts_full_duration :
    (let s3 := CountdownTimer.update
        (CountdownTimer.start (CountdownTimer.setTime CDState.constr 5000).1 0) 2000
     let s5 := CountdownTimer.start (CountdownTimer.stop s3) 2000
     s3.remainingTime = 3000 ∧
     (CountdownTimer.stop s3).remainingTime = 3000 ∧
     s5.remainingTime = 5000 ∧
     (CountdownTimer.update s5 5000).remainingTime = 2000 ∧
     (CountdownTimer.update s5 5000).hasExpired = false ∧
     (CountdownTimer.update s5 7000).remainingTime = 0 ∧
     (CountdownTimer.update s5 7000).hasExpired = true) := by decide

/-- C4: configuring a zero duration is rejected atomically — for every prior
engine state, `CountdownTimer.setTime(0)` throws `InvalidDuration` before
touching any field, so the returned state is exactly the prior state. -/
theorem c4_configure_zero_atomic (st : CDState) :
    CountdownTimer.setTime st 0 = (st, some CDErr.invalidDuration) := by
  rw [CountdownTimer.setTime, if_pos (by omega)]

/-- C4 (witness): `setTime 0` on the freshly constructed engine. -/
theorem c4_configure_zero_atomic_witness :
    CountdownTimer.setTime CDState.constr 0 =
      (CDState.constr, some CDErr.invalidDuration) :=
  c4_configure_zero_atomic CDState.constr

theorem timer_start_of_isRunning (st : SWState) (t : Int)
    (h : st.isRunning = true) : Timer.start st t = st := by
  simp [Timer.start, h]

/-- C7: `Timer.start` is idempotent — starting twice in a row, at any two
times, is observably identical to starting once: no re-anchoring of
`startTime` and no jump of `elapsedTime`. -/
theorem c7_start_idempotent (st : SWState) (t0 t1 : Int) :
    Timer.start (Timer.start st t0) t1 = Timer.start st t0 := by
  by_cases h : st.isRunning = true
  · rw [timer_start_of_isRunning st t0 h, timer_start_of_isRunning st t1 h]
  · have h2 : (Timer.start st t0).isRunning = true := by
      simp [Timer.start, h, Timer.update]
    exact timer_start_of_isRunning _ t1 h2

/-- C5 (counterexample): variant A's `CountdownTimer.setTime` enforces no
maximum: the duration 362,439,000 ms (digit pad entry 99:99:99, above the
claimed 359,999,000 ms ceiling) is accepted with no `DurationOverflow`. -/
theorem c5_counterexample :
    (359999000 : Int) < 362439000 ∧
    UIController.setCountdownTotalMs [9, 9, 9, 9, 9, 9] = 362439000 ∧
    (CountdownTimer.setTime CDState.constr 362439000).2 = none ∧
    (CountdownTimer.setTime CDState.constr 362439000).1.initialTime =
      362439000 := by decide

/-- C5 (amended): the maximum-duration policy holds in variant C's
`Countdown.setTime`: with a non-empty buffer, every duration
`0 < d ≤ 359,999,000 = maxTimeMs` is confirmed, and every `d > maxTimeMs`
fails with `DurationOverflow` and resets the digit buffer to empty; variant
A's `CountdownTimer.setTime` accepts any positive duration with no ceiling. -/
theorem c5_amended (st : GCState) (hbuf : st.inputBuffer ≠ []) :
    Countdown.maxTimeMs = 359999000 ∧
    (0 < st.remainingTime → st.remainingTime ≤ Countdown.maxTimeMs →
      Countdown.setTime st = ({ st with initialTime := st.remainingTime }, none)) ∧
    (Countdown.maxTimeMs < st.remainingTime →
      Countdown.setTime st = (Countdown.resetInput st, some GErr.durationOverflow) ∧
      (Countdown.setTime st).1.inputBuffer = []) := by
  refine ⟨rfl, ?_, ?_⟩
  · intro h1 h2
    rw [Countdown.setTime,
      if_neg (by simp [List.length_eq_zero, hbuf]; omega),
      if_neg (by omega)]
  · intro h1
    rw [Countdown.setTime,
      if_neg (by simp [List.length_eq_zero, hbuf]; omega),
      if_pos h1]
    exact ⟨rfl, by simp [Countdown.resetInput]⟩

/-- C5 (witness): confirming 5000 ms from buffer [5] succeeds; confirming
362,439,000 ms from buffer 999999 overflows and empties the buffer. -/
theorem c5_amended_witness :
    (([5] : List Nat) ≠ []) ∧
    Countdown.setTime ⟨0, 5000, [5], false⟩ = (⟨5000, 5000, [5], false⟩, none) ∧
    (([9, 9, 9, 9, 9, 9] : List Nat) ≠ []) ∧
    Countdown.setTime ⟨0, 362439000, [9, 9, 9, 9, 9, 9], false⟩ =
      (Countdown.resetInput ⟨0, 362439000, [9, 9, 9, 9, 9, 9], false⟩,
        some GErr.durationOverflow) :=
  ⟨by decide,
    (c5_amended ⟨0, 5000, [5], false⟩ (by decide)).2.1 (by decide) (by decide),
    by decide,
    ((c5_amended ⟨0, 362439000, [9, 9, 9, 9, 9, 9], false⟩ (by decide)).2.2
      (by decide)).1⟩

/-- C6 (counterexample): in variant C, digit input itself violates
`remaining ≤ configuredDuration`: from the freshly reset countdown, pressing
the single digit 5 sets `remainingTime = 5000` while `initialTime = 0`. -/
theorem c6_counterexample :
    (Countdown.appendDigit (Countdown.resetInput GCState.constr) 5).initialTime
      = 0 ∧
    (Countdown.appendDigit (Countdown.resetInput GCState.constr) 5).remainingTime
      = 5000 ∧
    ¬ ((Countdown.appendDigit (Countdown.resetInput GCState.constr) 5).remainingTime
      ≤ (Countdown.appendDigit (Countdown.resetInput GCState.constr) 5).initialTime)
    := by decide

/-- C6 (amended): for variant A's `CountdownTimer` engine,
`remaining ≤ configuredDuration` holds in every state reachable by
configure/start/pause/resume/tick/reset/clear under a monotone clock, and no
operation other than `setTime` and `clear` (including `reset`) modifies
`initialTime`. -/
theorem c6_amended :
    (∀ st t, CDReach st t → st.remainingTime ≤ st.initialTime) ∧
    (∀ st t,
      (CDState.apply st t CDOp.start).initialTime = st.initialTime ∧
      (CDState.apply st t CDOp.stop).initialTime = st.initialTime ∧
      (CDState.apply st t CDOp.reset).initialTime = st.initialTime ∧
      (CDState.apply st t CDOp.tick).initialTime = st.initialTime) := by
  constructor
  · intro st t h
    exact (cdReach_inv st t h).2.2.1
  · intro st t
    refine ⟨?_, ?_, ?_, ?_⟩ <;>
      simp only [CDState.apply, CountdownTimer.start, CountdownTimer.stop,
        CountdownTimer.reset, CountdownTimer.update] <;>
      split_ifs <;> rfl

/-- C6 (witness): the invariant at the concrete reachable state obtained by
configuring 5000 ms at time 0, and `initialTime` preservation at that state. -/
theorem c6_amended_witness :
    (CDState.apply CDState.constr 0 (CDOp.set 5000)).remainingTime ≤
      (CDState.apply CDState.constr 0 (CDOp.set 5000)).initialTime ∧
    (CDState.apply CDState.constr 0 CDOp.tick).initialTime =
      CDState.constr.initialTime :=
  ⟨c6_amended.1 (CDState.apply CDState.constr 0 (CDOp.set 5000)) 0
      (CDReach.step CDState.constr 0 0 (CDOp.set 5000) (CDReach.constr 0)
        le_rfl),
    (c6_amended.2 CDState.constr 0).2.2.2⟩

/-- C8: for every buffer of at most 6 digits, all three implementations of
the buffered-duration arithmetic — variant A's `setCountdownTime`, variant
B's `getCountdownMilliseconds`, and variant C's `updateInputDisplay` value —
equal the spec formula: pad to 6 digits with leading zeros, split into
HH/MM/SS pairs, and return `(HH*3600 + MM*60 + SS) * 1000` ms, with no
semantic validation that MM or SS are below 60. -/
theorem c8_currentDuration_arithmetic (buf : List Nat) (hlen : buf.length ≤ 6) :
    getCountdownMilliseconds buf = specHHMMSSDuration buf ∧
    UIController.setCountdownTotalMs buf = specHHMMSSDuration buf ∧
    Countdown.currentInputMs buf = specHHMMSSDuration buf := by
  rcases buf with _ | ⟨a, _ | ⟨b, _ | ⟨c, _ | ⟨d, _ | ⟨e, _ | ⟨f, _ | ⟨g, rest⟩⟩⟩⟩⟩⟩⟩ <;>
    first
    | (exfalso; simp only [List.length_cons, List.length_nil] at hlen; omega)
    | (refine ⟨?_, ?_, ?_⟩ <;>
        simp [getCountdownMilliseconds, UIController.setCountdownTotalMs,
          Countdown.currentInputMs, specHHMMSSDuration, padStart6, parseDigits,
          List.replicate, List.getD] <;> ring)

/-- C8 (witness): the arithmetic agreement at buffer 999999, where minutes
and seconds are both 99 (no semantic validation). -/
theorem c8_currentDuration_arithmetic_witness :
    (([9, 9, 9, 9, 9, 9] : List Nat).length ≤ 6) ∧
    (getCountdownMilliseconds [9, 9, 9, 9, 9, 9] =
      specHHMMSSDuration [9, 9, 9, 9, 9, 9] ∧
    UIController.setCountdownTotalMs [9, 9, 9, 9, 9, 9] =
      specHHMMSSDuration [9, 9, 9, 9, 9, 9] ∧
    Countdown.currentInputMs [9, 9, 9, 9, 9, 9] =
      specHHMMSSDuration [9, 9, 9, 9, 9, 9]) :=
  ⟨by decide, c8_currentDuration_arithmetic [9, 9, 9, 9, 9, 9] (by decide)⟩

/-- C9: for every non-negative `ms`, all three formatter implementations
decompose exactly as the spec states — `hours = ms / 3600000`,
`minutes = (ms mod 3600000) / 60000`, `seconds = (ms mod 60000) / 1000`,
`millis = ms mod 1000`, zero-padded to 2/2/2/3 digits — with no special
handling above 99 hours. -/
theorem c9_formatter_decomposition (n : Nat) :
    Timer.formatTime n = specFormat n ∧
    (formatTime n).time = (specFormat n).formatted ∧
    (formatTime n).ms = "." ++ (specFormat n).milliseconds ∧
    TimerBase.formatTime (n : Int) = (specFormat n).fullFormatted := by
  have h1 : n / 1000 / 3600 = n / 3600000 := by
    rw [Nat.div_div_eq_div_mul]
  have h2 : n / 1000 % 3600 / 60 = n % 3600000 / 60000 := by
    rw [← Nat.mod_mul_right_div_self, Nat.div_div_eq_div_mul]
  have h3 : n / 1000 % 60 = n % 60000 / 1000 := by
    rw [← Nat.mod_mul_right_div_self]
  have h4 : (max 0 ((n : Nat) : Int)).toNat = n := by
    rw [max_eq_right (Int.natCast_nonneg n)]
    rfl
  refine ⟨?_, ?_, ?_, ?_⟩ <;>
    simp [Timer.formatTime, formatTime, TimerBase.formatTime, specFormat,
      h1, h2, h3, h4]

/-- C10: `TimerBase.formatTime` clamps every negative input to zero, so it
returns exactly the output for 0 ms, the string `00:00:00.000` — never a
negative or malformed field. -/
theorem c10_formatTime_negative_clamps (ms : Int) (h : ms < 0) :
    TimerBase.formatTime ms = TimerBase.formatTime 0 ∧
    TimerBase.formatTime ms = "00:00:00.000" := by
  have h0 : max 0 ms = 0 := max_eq_left h.le
  constructor
  · rw [TimerBase.formatTime, TimerBase.formatTime, h0]
    decide
  · rw [TimerBase.formatTime, h0]
    decide

/-- C10 (witness): the clamp at `ms = -1`. -/
theorem c10_formatTime_negative_clamps_witness :
    (-1 : Int) < 0 ∧
    (TimerBase.formatTime (-1) = TimerBase.formatTime 0 ∧
      TimerBase.formatTime (-1) = "00:00:00.000") :=
  ⟨by decide, c10_formatTime_negative_clamps (-1) (by decide)⟩
